import Mathlib

/-!
Shallow embedding of the OpenEngine `SimpleSetup` facade
(`src/Utils/SimpleSetup.cpp`).

Heap objects (scene roots, viewing volumes, cameras, frustums, loaders,
light nodes) are identified by natural-number ids allocated from a
counter `nextId`; `new` allocates the next id, `delete` appends the id to
a `destroyed` log.  External collaborators are modelled by effect logs in
the state: `loads` records every call `textureloader->Load(root)` (one
such call loads every texture resource reachable from `root`),
`stopRequests` counts calls to `engine.Stop()`, `log` records leveled
logger output, `dotWrites` records scene graphs written by
`ASDotVisitor::Write`, and `sceneAdds` records `scene->AddNode(...)`
calls.  Event-bus attachment tables are ordered lists, one per phase,
exactly mirroring the `Attach` calls in the source.
-/

/-- Listeners attachable to the engine lifecycle phases
(`engine->InitializeEvent()`, `ProcessEvent()`, `DeinitializeEvent()`):
the frame (display surface), the renderer, the input device, and the
shader reactive loaders created by `SetScene` (each bound to the texture
loader and a scene root, `new ShaderLoader(*textureloader, scene)`). -/
inductive Listener where
  | frame
  | renderer
  | input
  | shaderLoader (tl : Nat) (scene : Nat)
  deriving DecidableEq

/-- Listeners attachable to the renderer phases: the
`TextureLoadOnInit` listener (bound to the texture loader), the
`ExtRenderingView`, and the HUD. -/
inductive RListener where
  | texLoadOnInit (tl : Nat)
  | renderingview
  | hud
  deriving DecidableEq

/-- Listeners attachable to the input device key event:
the `QuitHandler`. -/
inductive KListener where
  | quitHandler
  deriving DecidableEq

/-- The viewing-volume provider bound to the viewport by
`viewport->SetViewingVolume(...)`: either a Frustum or a bare Camera. -/
inductive VProv where
  | frustumP (f : Nat)
  | cameraP (c : Nat)
  deriving DecidableEq

/-- Scene-graph nodes passed to `AddNode`: the default
`DirectionalLightNode`, or the debug node `frustum->GetFrustumNode()`. -/
inductive NodeRef where
  | dirLight (id : Nat)
  | frustumNode (f : Nat)
  deriving DecidableEq

/-- Logger levels used by `SimpleSetup` (`logger.error`, `logger.info`). -/
inductive LogLevel where
  | error
  | info
  deriving DecidableEq

/-- One leveled message sent to the logging collaborator. -/
structure LogMsg where
  level : LogLevel
  text : String
  deriving DecidableEq

/-- State of the `SimpleSetup` facade together with the effect logs of
its collaborators. -/
structure SimpleSetup where
  /-- allocation counter: every id ever allocated is `< nextId` -/
  nextId : Nat
  /-- member `scene` (current scene root, returned by `GetScene`) -/
  scene : Nat
  /-- member `camera` (current camera, returned by `GetCamera`) -/
  camera : Nat
  /-- member `frustum` (the facade-owned frustum) -/
  frustum : Nat
  /-- which viewing volume each allocated Camera wraps (`new Camera(v)`) -/
  cameraWraps : List (Nat × Nat)
  /-- which camera each allocated Frustum wraps (`new Frustum(*camera)`) -/
  frustumWraps : List (Nat × Nat)
  /-- the provider bound by the last `viewport->SetViewingVolume(...)` -/
  viewportVolume : VProv
  /-- the renderer scene root (`renderer->SetSceneRoot`, `GetSceneRoot`) -/
  rendererRoot : Option Nat
  /-- ids passed to `delete`, in order -/
  destroyed : List Nat
  /-- `engine->InitializeEvent()` listeners, in attachment order -/
  initListeners : List Listener
  /-- `engine->ProcessEvent()` listeners, in attachment order -/
  processListeners : List Listener
  /-- `engine->DeinitializeEvent()` listeners, in attachment order -/
  deinitListeners : List Listener
  /-- `renderer->InitializeEvent()` listeners -/
  rendererInitListeners : List RListener
  /-- `renderer->ProcessEvent()` listeners -/
  rendererProcessListeners : List RListener
  /-- `renderer->PostProcessEvent()` listeners -/
  rendererPostProcessListeners : List RListener
  /-- `input->KeyEvent()` listeners -/
  inputKeyListeners : List KListener
  /-- member `textureloader` -/
  textureloader : Nat
  /-- roots passed to `textureloader->Load(...)`, in call order; one call
  loads every texture resource reachable from that root, synchronously -/
  loads : List Nat
  /-- number of `engine.Stop()` calls issued -/
  stopRequests : Nat
  /-- frustums on which `VisualizeClipping(true)` was called -/
  clipVisualized : List Nat
  /-- `(scene, node)` pairs passed to `scene->AddNode(node)` -/
  sceneAdds : List (Nat × NodeRef)
  /-- scene roots serialized to `scene.dot` by `ASDotVisitor::Write` -/
  dotWrites : List Nat
  /-- messages sent to the logging collaborator -/
  log : List LogMsg
  deriving DecidableEq

/-- The key symbol compared against in `QuitHandler::Handle`
(`arg.sym == KEY_ESCAPE`; SDL escape key code). -/
def KEY_ESCAPE : Nat := 27

/-- The constructor `SimpleSetup::SimpleSetup(std::string title)`.
Ids follow the member-initializer allocation order for the objects the
model tracks by id: the default `SceneNode` (0), the `ViewingVolume` (1),
the `InterpolatedViewingVolume` wrapping it (2), the default `Camera` (3)
wrapping volume 2, the `Frustum` (4) wrapping camera 3, the
`TextureLoader` (5); the constructor body then allocates the default
`DirectionalLightNode` (6) and adds it to the scene.  The body attaches
frame, renderer, input to each of the three engine phases in that order,
binds `renderer->SetSceneRoot(scene)` and
`viewport->SetViewingVolume(frustum)`, attaches a `TextureLoadOnInit` to
the renderer initialize phase, the `ExtRenderingView` to the renderer
process phase, a `QuitHandler` to the key event, and the HUD to the
renderer post-process phase. -/
def mkSimpleSetup : SimpleSetup where
  nextId := 7
  scene := 0
  camera := 3
  frustum := 4
  cameraWraps := [(3, 2)]
  frustumWraps := [(4, 3)]
  viewportVolume := VProv.frustumP 4
  rendererRoot := some 0
  destroyed := []
  initListeners := [Listener.frame, Listener.renderer, Listener.input]
  processListeners := [Listener.frame, Listener.renderer, Listener.input]
  deinitListeners := [Listener.frame, Listener.renderer, Listener.input]
  rendererInitListeners := [RListener.texLoadOnInit 5]
  rendererProcessListeners := [RListener.renderingview]
  rendererPostProcessListeners := [RListener.hud]
  inputKeyListeners := [KListener.quitHandler]
  textureloader := 5
  loads := []
  stopRequests := 0
  clipVisualized := []
  sceneAdds := [(0, NodeRef.dirLight 6)]
  dotWrites := []
  log := []

/-- `ISceneNode* SimpleSetup::GetScene() const { return scene; }` -/
def SimpleSetup.GetScene (st : SimpleSetup) : Nat := st.scene

/-- `Camera* SimpleSetup::GetCamera() const { return camera; }` -/
def SimpleSetup.GetCamera (st : SimpleSetup) : Nat := st.camera

/-- `void SimpleSetup::SetScene(ISceneNode& scene)`: stores the new root,
rebinds the renderer to it, calls `textureloader->Load(scene)`, then
allocates a `new OpenGL::ShaderLoader(*textureloader, scene)` and
attaches it to `engine->InitializeEvent()`.  Nothing is deleted. -/
def SimpleSetup.SetScene (st : SimpleSetup) (s : Nat) : SimpleSetup :=
  { st with
    scene := s
    rendererRoot := some s
    loads := st.loads ++ [s]
    nextId := st.nextId + 1
    initListeners := st.initListeners ++ [Listener.shaderLoader st.textureloader s] }

/-- `void SimpleSetup::SetCamera(Camera& volume)` (replace by camera):
`camera = &volume; delete frustum; frustum = new Frustum(*camera);
viewport->SetViewingVolume(frustum);` -/
def SimpleSetup.SetCameraByCamera (st : SimpleSetup) (c : Nat) : SimpleSetup :=
  { st with
    camera := c
    destroyed := st.destroyed ++ [st.frustum]
    frustum := st.nextId
    frustumWraps := (st.nextId, c) :: st.frustumWraps
    nextId := st.nextId + 1
    viewportVolume := VProv.frustumP st.nextId }

/-- `void SimpleSetup::SetCamera(IViewingVolume& volume)` (replace by
viewing volume): `camera = new Camera(volume);
viewport->SetViewingVolume(camera);` — no frustum is touched. -/
def SimpleSetup.SetCameraByVolume (st : SimpleSetup) (v : Nat) : SimpleSetup :=
  { st with
    camera := st.nextId
    cameraWraps := (st.nextId, v) :: st.cameraWraps
    nextId := st.nextId + 1
    viewportVolume := VProv.cameraP st.nextId }

/-- `void SimpleSetup::EnableDebugging()`: enables clip visualization on
the frustum, adds `frustum->GetFrustumNode()` to the current scene, then
opens `scene.dot`; `dotfileGood` models `dotfile.good()`.  On failure it
logs an error and continues; on success it writes the graph and logs two
informational messages (quotes around file names elided from the
strings).  The operation is total: no fault is raised on either path. -/
def SimpleSetup.EnableDebugging (st : SimpleSetup) (dotfileGood : Bool) : SimpleSetup :=
  let st1 := { st with
    clipVisualized := st.clipVisualized ++ [st.frustum]
    sceneAdds := st.sceneAdds ++ [(st.scene, NodeRef.frustumNode st.frustum)] }
  if dotfileGood then
    { st1 with
      dotWrites := st1.dotWrites ++ [st1.scene]
      log := st1.log ++
        [⟨LogLevel.info, "Saved physics graph to scene.dot"⟩,
         ⟨LogLevel.info, "To create a SVG image run: dot -Tsvg scene.dot > scene.svg"⟩] }
  else
    { st1 with
      log := st1.log ++ [⟨LogLevel.error, "Can not open scene.dot for output"⟩] }

/-- `TextureLoadOnInit::Handle(RenderingEventArg)`: the roots the
listener passes to `tl.Load` given the renderer scene root
(`if (arg.renderer.GetSceneRoot() != NULL) tl.Load(*...)`). -/
def TextureLoadOnInit.Handle (root : Option Nat) : List Nat :=
  match root with
  | some r => [r]
  | none => []

/-- `QuitHandler::Handle(KeyboardEventArg)`: the number of
`engine.Stop()` calls issued for a key symbol
(`if (arg.sym == KEY_ESCAPE) engine.Stop();`). -/
def QuitHandler.Handle (sym : Nat) : Nat :=
  if sym = KEY_ESCAPE then 1 else 0

/-- Firing the renderer initialize phase: each attached listener runs in
attachment order; a `TextureLoadOnInit` listener contributes the loads of
`TextureLoadOnInit.Handle` on the renderer's current scene root. -/
def SimpleSetup.fireRendererInit (st : SimpleSetup) : SimpleSetup :=
  { st with
    loads := st.loads ++ st.rendererInitListeners.foldl (fun acc l =>
      match l with
      | RListener.texLoadOnInit _ => acc ++ TextureLoadOnInit.Handle st.rendererRoot
      | _ => acc) [] }

/-- Firing the input device key event with a key symbol: each attached
listener runs in attachment order; the `QuitHandler` contributes
`QuitHandler.Handle sym` stop requests. -/
def SimpleSetup.fireKeyEvent (st : SimpleSetup) (sym : Nat) : SimpleSetup :=
  { st with
    stopRequests := st.stopRequests + st.inputKeyListeners.foldl (fun acc l =>
      match l with
      | KListener.quitHandler => acc + QuitHandler.Handle sym) 0 }

/-- Whether the facade still references camera `c` after a call: through
its `camera` member, through the camera wrapped by its stored `frustum`,
or through the viewport's provider when that is a bare camera. -/
def SimpleSetup.refsCamera (st : SimpleSetup) (c : Nat) : Bool :=
  (c == st.camera) ||
  (match st.frustumWraps.lookup st.frustum with
   | some c2 => c == c2
   | none => false) ||
  (match st.viewportVolume with
   | VProv.cameraP c2 => c == c2
   | VProv.frustumP _ => false)

/-- A camera-replacement call: `SetCamera(Camera&)` or
`SetCamera(IViewingVolume&)`. -/
inductive CamOp where
  | byCam (c : Nat)
  | byVol (v : Nat)
  deriving DecidableEq

/-- Apply one camera-replacement call. -/
def SimpleSetup.applyCamOp (st : SimpleSetup) : CamOp → SimpleSetup
  | CamOp.byCam c => st.SetCameraByCamera c
  | CamOp.byVol v => st.SetCameraByVolume v

/-- Run a sequence of camera-replacement calls from a state. -/
def runCamOps (st : SimpleSetup) (ops : List CamOp) : SimpleSetup :=
  ops.foldl SimpleSetup.applyCamOp st

/-- Whether an engine-initialize listener is a shader reactive loader. -/
def isShaderLoader : Listener → Bool
  | Listener.shaderLoader _ _ => true
  | _ => false

/-- Number of shader reactive loaders attached to the engine's
initialize phase. -/
def SimpleSetup.shaderLoaderCount (st : SimpleSetup) : Nat :=
  st.initListeners.countP isShaderLoader

/-- Run a sequence of `SetScene` calls from a freshly constructed
facade. -/
def runScenes (roots : List Nat) : SimpleSetup :=
  roots.foldl SimpleSetup.SetScene mkSimpleSetup

/-- Folding `SetScene` adds one shader reactive loader per call. -/
theorem foldl_setScene_count (roots : List Nat) (st : SimpleSetup) :
    (roots.foldl SimpleSetup.SetScene st).shaderLoaderCount
      = st.shaderLoaderCount + roots.length := by
  induction roots generalizing st with
  | nil => simp
  | cons r rs ih =>
      rw [List.foldl_cons, ih]
      simp [SimpleSetup.shaderLoaderCount, SimpleSetup.SetScene,
        List.countP_append, isShaderLoader]
      omega

/-- Folding `SetScene` never changes the texture loader member. -/
theorem foldl_setScene_textureloader (roots : List Nat) (st : SimpleSetup) :
    (roots.foldl SimpleSetup.SetScene st).textureloader = st.textureloader := by
  induction roots generalizing st with
  | nil => rfl
  | cons r rs ih =>
      rw [List.foldl_cons, ih]
      rfl

/-- C1: `SetScene(s)` sets the facade's current scene (as returned by
`GetScene`) and the renderer's scene root to `s`, issues the blocking
call `textureloader->Load(s)` — loading every texture resource reachable
from `s` — before returning, attaches exactly one new shader reactive
loader bound to the texture loader and `s` to the engine's initialize
phase, and deletes nothing, so in particular the previous scene root is
not destroyed. -/
theorem C1_setScene_effects (st : SimpleSetup) (s : Nat) :
    (st.SetScene s).GetScene = s
  ∧ (st.SetScene s).rendererRoot = some s
  ∧ (st.SetScene s).loads = st.loads ++ [s]
  ∧ (st.SetScene s).initListeners
      = st.initListeners ++ [Listener.shaderLoader st.textureloader s]
  ∧ (st.SetScene s).destroyed = st.destroyed :=
  ⟨rfl, rfl, rfl, rfl, rfl⟩

/-- C2 counterexample: the claim quantifies over every camera `c`, but at
`c` equal to the currently active camera, `SetCamera(Camera&)` leaves the
previously active camera referenced by the facade afterwards — it is the
new current camera and the fresh frustum wraps it — refuting the
conjunct that the previously active camera is not referenced by the
facade after the call. -/
theorem C2_referenced_counterexample :
    (mkSimpleSetup.SetCameraByCamera mkSimpleSetup.camera).refsCamera
      mkSimpleSetup.camera = true := by decide

/-- C2 (amended): for a camera `c` distinct from the currently active
one, `SetCamera(Camera&)` deletes the current frustum, allocates a fresh
frustum wrapping `c`, rebinds the viewport to that new frustum, makes `c`
the current camera, and neither destroys nor keeps any reference to the
previously active camera.  The side conditions say the current camera id
is not already destroyed and differs from the frustum id, which is
automatic in the source where cameras and frustums are distinct heap
objects. -/
theorem C2_setCamera_by_camera (st : SimpleSetup) (c : Nat)
    (hne : c ≠ st.camera)
    (hnd : st.camera ∉ st.destroyed)
    (hcf : st.camera ≠ st.frustum) :
    (st.SetCameraByCamera c).destroyed = st.destroyed ++ [st.frustum]
  ∧ (st.SetCameraByCamera c).frustum = st.nextId
  ∧ (st.SetCameraByCamera c).frustumWraps.lookup (st.SetCameraByCamera c).frustum
      = some c
  ∧ (st.SetCameraByCamera c).viewportVolume
      = VProv.frustumP (st.SetCameraByCamera c).frustum
  ∧ (st.SetCameraByCamera c).GetCamera = c
  ∧ st.camera ∉ (st.SetCameraByCamera c).destroyed
  ∧ (st.SetCameraByCamera c).refsCamera st.camera = false := by
  have hc : st.camera ≠ c := fun h => hne h.symm
  refine ⟨rfl, rfl, ?_, rfl, rfl, ?_, ?_⟩
  · simp [SimpleSetup.SetCameraByCamera, List.lookup]
  · simp [SimpleSetup.SetCameraByCamera, hnd, hcf]
  · simp [SimpleSetup.refsCamera, SimpleSetup.SetCameraByCamera, List.lookup, hc]

/-- C2 witness: the amended claim applied to a fresh facade and a new
externally owned camera id. -/
theorem C2_setCamera_by_camera_witness :
    (mkSimpleSetup.SetCameraByCamera 100).refsCamera mkSimpleSetup.camera = false :=
  (C2_setCamera_by_camera mkSimpleSetup 100 (by decide) (by decide)
    (by decide)).2.2.2.2.2.2

/-- C3: `SetCamera(IViewingVolume&)` allocates a brand-new camera (the
next fresh id) wrapping the given volume, makes it the current camera
(returned by `GetCamera`), and binds the viewport provider directly to
that camera, not to any frustum; the stored frustum, the frustum
allocation table, and the destroyed log are all unchanged, so no frustum
is created or destroyed. -/
theorem C3_setCamera_by_volume (st : SimpleSetup) (v : Nat) :
    (st.SetCameraByVolume v).GetCamera = st.nextId
  ∧ (st.SetCameraByVolume v).cameraWraps.lookup (st.SetCameraByVolume v).camera
      = some v
  ∧ (st.SetCameraByVolume v).viewportVolume
      = VProv.cameraP (st.SetCameraByVolume v).camera
  ∧ (st.SetCameraByVolume v).frustum = st.frustum
  ∧ (st.SetCameraByVolume v).frustumWraps = st.frustumWraps
  ∧ (st.SetCameraByVolume v).destroyed = st.destroyed := by
  refine ⟨rfl, ?_, rfl, rfl, rfl, rfl⟩
  simp [SimpleSetup.SetCameraByVolume, List.lookup]

/-- C4: after any finite sequence of camera replacements from a freshly
constructed facade, the viewport's provider is the object installed by
the most recent replacement: the fresh frustum wrapping the given camera
if the last call was by-camera, the newly allocated camera wrapping the
given volume if the last call was by-volume, and the initial frustum if
no replacement occurred. -/
theorem C4_viewport_tracks_last_replacement (ops : List CamOp) :
    match ops.getLast? with
    | none =>
        (runCamOps mkSimpleSetup ops).viewportVolume
          = VProv.frustumP mkSimpleSetup.frustum
    | some (CamOp.byCam c) =>
        (runCamOps mkSimpleSetup ops).viewportVolume
          = VProv.frustumP (runCamOps mkSimpleSetup ops).frustum
        ∧ (runCamOps mkSimpleSetup ops).frustumWraps.lookup
            (runCamOps mkSimpleSetup ops).frustum = some c
        ∧ (runCamOps mkSimpleSetup ops).GetCamera = c
    | some (CamOp.byVol v) =>
        (runCamOps mkSimpleSetup ops).viewportVolume
          = VProv.cameraP (runCamOps mkSimpleSetup ops).camera
        ∧ (runCamOps mkSimpleSetup ops).cameraWraps.lookup
            (runCamOps mkSimpleSetup ops).camera = some v := by
  rcases List.eq_nil_or_concat ops with rfl | ⟨pre, op, rfl⟩
  · simp [runCamOps]
    rfl
  · rw [List.concat_eq_append]
    cases op with
    | byCam c =>
        simp [List.getLast?_concat, runCamOps, List.foldl_append,
          SimpleSetup.applyCamOp, SimpleSetup.SetCameraByCamera,
          SimpleSetup.GetCamera, List.lookup]
    | byVol v =>
        simp [List.getLast?_concat, runCamOps, List.foldl_append,
          SimpleSetup.applyCamOp, SimpleSetup.SetCameraByVolume, List.lookup]

/-- C5: after N consecutive `SetScene` calls from a fresh facade exactly
N shader reactive loaders are attached to the engine's initialize phase,
and each further call appends one new loader after all previously
attached listeners, none of which is ever removed. -/
theorem C5_one_loader_per_setScene :
    (∀ roots : List Nat, (runScenes roots).shaderLoaderCount = roots.length)
  ∧ ∀ (roots : List Nat) (r : Nat),
      (runScenes (roots ++ [r])).initListeners
        = (runScenes roots).initListeners
          ++ [Listener.shaderLoader mkSimpleSetup.textureloader r] := by
  constructor
  · intro roots
    rw [runScenes, foldl_setScene_count]
    have h0 : mkSimpleSetup.shaderLoaderCount = 0 := rfl
    rw [h0, Nat.zero_add]
  · intro roots r
    rw [runScenes, runScenes, List.foldl_append]
    simp [SimpleSetup.SetScene, foldl_setScene_textureloader]

/-- C6: construction registers the frame (display surface), the
renderer, and the input device — in that order, each exactly once — as
listeners on each of the engine's initialize, process, and deinitialize
phases, with no duplicates. -/
theorem C6_module_registration :
    mkSimpleSetup.initListeners = [Listener.frame, Listener.renderer, Listener.input]
  ∧ mkSimpleSetup.processListeners = [Listener.frame, Listener.renderer, Listener.input]
  ∧ mkSimpleSetup.deinitListeners = [Listener.frame, Listener.renderer, Listener.input]
  ∧ ([Listener.frame, Listener.renderer, Listener.input] : List Listener).Nodup :=
  ⟨rfl, rfl, rfl, by decide⟩

/-- C7: `EnableDebugging` is total on both file outcomes (no fault is
raised).  When `scene.dot` cannot be opened it logs exactly one error
and still enables frustum clip visualization and still adds the
frustum's debug node to the active scene, writing no file; on success it
writes the graph and logs informational messages including the command
hint for converting the output to an SVG image. -/
theorem C7_enableDebugging_paths (st : SimpleSetup) :
    ((st.EnableDebugging false).log
        = st.log ++ [⟨LogLevel.error, "Can not open scene.dot for output"⟩]
      ∧ (st.EnableDebugging false).clipVisualized = st.clipVisualized ++ [st.frustum]
      ∧ (st.EnableDebugging false).sceneAdds
        = st.sceneAdds ++ [(st.scene, NodeRef.frustumNode st.frustum)]
      ∧ (st.EnableDebugging false).dotWrites = st.dotWrites)
  ∧ ((st.EnableDebugging true).log
        = st.log ++
          [⟨LogLevel.info, "Saved physics graph to scene.dot"⟩,
           ⟨LogLevel.info, "To create a SVG image run: dot -Tsvg scene.dot > scene.svg"⟩]
      ∧ (st.EnableDebugging true).clipVisualized = st.clipVisualized ++ [st.frustum]
      ∧ (st.EnableDebugging true).sceneAdds
        = st.sceneAdds ++ [(st.scene, NodeRef.frustumNode st.frustum)]
      ∧ (st.EnableDebugging true).dotWrites = st.dotWrites ++ [st.scene]) :=
  ⟨⟨rfl, rfl, rfl, rfl⟩, ⟨rfl, rfl, rfl, rfl⟩⟩

/-- C8: when the renderer's initialize phase fires with the
construction-installed `TextureLoadOnInit` listener attached, the loads
issued are exactly those of the listener's handler on the renderer's
current scene root: none when the root is null (and no error is raised —
the handler is total), and all textures reachable from the root when it
is non-null. -/
theorem C8_texture_preload_on_init (st : SimpleSetup)
    (h : st.rendererInitListeners = [RListener.texLoadOnInit st.textureloader]) :
    (st.fireRendererInit).loads = st.loads ++ TextureLoadOnInit.Handle st.rendererRoot
  ∧ TextureLoadOnInit.Handle none = []
  ∧ ∀ r : Nat, TextureLoadOnInit.Handle (some r) = [r] := by
  refine ⟨?_, rfl, fun r => rfl⟩
  simp [SimpleSetup.fireRendererInit, h]

/-- C8 witness: the freshly constructed facade satisfies the listener
hypothesis, and firing loads the default scene root. -/
theorem C8_texture_preload_witness :
    (mkSimpleSetup.fireRendererInit).loads
      = mkSimpleSetup.loads ++ TextureLoadOnInit.Handle mkSimpleSetup.rendererRoot :=
  (C8_texture_preload_on_init mkSimpleSetup rfl).1

/-- C9: firing a key event on the fresh facade's input device issues
exactly one stop request when the key is escape and zero otherwise; the
`QuitHandler` handler itself stops once on escape and never on any other
key. -/
theorem C9_quit_on_escape (sym : Nat) :
    (mkSimpleSetup.fireKeyEvent sym).stopRequests
      = (if sym = KEY_ESCAPE then 1 else 0)
  ∧ QuitHandler.Handle KEY_ESCAPE = 1
  ∧ (sym ≠ KEY_ESCAPE → QuitHandler.Handle sym = 0) := by
  refine ⟨?_, rfl, fun h => by simp [QuitHandler.Handle, h]⟩
  simp [SimpleSetup.fireKeyEvent, mkSimpleSetup, QuitHandler.Handle]

/-- C9 witness: a non-escape key issues zero stop requests. -/
theorem C9_quit_on_escape_witness : QuitHandler.Handle 0 = 0 :=
  (C9_quit_on_escape 0).2.2 (by decide)

/-- C10: `SetCamera(IViewingVolume&)` leaves the stored frustum
untouched — it still wraps the camera that was active before the call —
while the current camera becomes a freshly allocated one, so the stored
frustum and `GetCamera` are out of sync; a subsequent
`SetCamera(Camera&)` then deletes exactly that stale frustum.  The
hypotheses say the stored frustum currently wraps the current camera and
the camera id was allocated earlier, both true of every facade the
operations produce. -/
theorem C10_stale_frustum (st : SimpleSetup) (v c : Nat)
    (h1 : st.frustumWraps.lookup st.frustum = some st.camera)
    (h2 : st.camera < st.nextId) :
    (st.SetCameraByVolume v).frustum = st.frustum
  ∧ (st.SetCameraByVolume v).frustumWraps.lookup (st.SetCameraByVolume v).frustum
      = some st.camera
  ∧ (st.SetCameraByVolume v).GetCamera ≠ st.camera
  ∧ ((st.SetCameraByVolume v).SetCameraByCamera c).destroyed
      = (st.SetCameraByVolume v).destroyed ++ [st.frustum] := by
  refine ⟨rfl, h1, ?_, rfl⟩
  show st.nextId ≠ st.camera
  omega

/-- C10 witness: on the fresh facade, replace by volume then by camera;
the second call destroys the frustum stored before the first call. -/
theorem C10_stale_frustum_witness :
    ((mkSimpleSetup.SetCameraByVolume 50).SetCameraByCamera 60).destroyed
      = (mkSimpleSetup.SetCameraByVolume 50).destroyed ++ [mkSimpleSetup.frustum] :=
  (C10_stale_frustum mkSimpleSetup 50 60 (by decide) (by decide)).2.2.2
